import Mathlib

/-!
Shallow embedding of the SirServer tile storage and addressing engine
(package `sfile`: `Repository.go` and the `SRepository` file) together with
theorems checking the specification's claims about it.

Conventions of the embedding:
* Go `int64`/`int8`/`int32` values are modelled as `Int`; Go's `/` and `%`
  on integers truncate toward zero, which is `Int.tdiv` / `Int.tmod`.
* Go `float64` values that take part only in `min`/`max`/`+`/`*` arithmetic
  (bounding boxes, file sizes) are modelled as `ℚ`, with `math.MaxFloat64`
  as the exact rational value of that float; the transcendental Mercator
  math is modelled over `ℝ`.
* Filesystem and SQLite effects are modelled by explicit environment
  records (`TileEnv`, `RepoFS`) giving the outcome of each external call,
  and `GetXYZ` additionally returns the trace of external actions it
  performed, in order.
-/

namespace SirServer

/-- Go `int8` wrap-around: the value of an `int8` addition, reduced into
`[-128, 127]`.  Used because in `fmt.Sprintf("%c", 'A'+vz)` the constant
`'A'` adopts the `int8` type of `vz`. -/
def int8wrap (n : Int) : Int := (n + 128) % 256 - 128

/-- Go `fmt.Sprintf("%c", c)` for an integer `c`: the character with that
code point, or the replacement character for a negative value. -/
def charOf (c : Int) : Char :=
  if c < 0 then '�' else Char.ofNat c.toNat

/-- The zoom-letter code `'A' + vz` computed in `int8` arithmetic
(`GetXYZ` lines 20, 21, 33). -/
def letterCode (vz : Int) : Int := int8wrap (65 + vz)

/-- The one-character zoom-letter string `fmt.Sprintf("%c", 'A'+vz)`. -/
def letterStr (vz : Int) : String := String.singleton (charOf (letterCode vz))

/-- Effective zoom `vz := max(z, 9)` (`GetXYZ` line 19). -/
def effZoom (z : Int) : Int := max z 9

/-- Row index `x%64 + 64*(y%64)` (`GetXYZ` line 34), with Go's
truncated `%`. -/
def rowIndex (x y : Int) : Int := Int.tmod x 64 + 64 * Int.tmod y 64

/-- The shard address computed by `GetXYZ` before any I/O:
subdirectory, shard file name, table name, row index. -/
structure ShardAddress where
  subDir : String
  dbFile : String
  table : String
  row : Int
deriving DecidableEq, Repr

/-- The pure address computation of `GetXYZ` (lines 19–22, 33–34):
`subDir = "%c" of 'A'+vz`, `dbFile = "%c_%d_%d.s"` of `'A'+vz, x/256, y/256`,
`table = "%c_%d_%d"` of `'A'+vz, x/64, y/64`, `row = x%64 + 64*(y%64)`. -/
def resolve (x y z : Int) : ShardAddress :=
  let vz := effZoom z
  { subDir := letterStr vz
    dbFile := letterStr vz ++ "_" ++ toString (Int.tdiv x 256) ++ "_" ++
              toString (Int.tdiv y 256) ++ ".s"
    table := letterStr vz ++ "_" ++ toString (Int.tdiv x 64) ++ "_" ++
             toString (Int.tdiv y 64)
    row := rowIndex x y }

/-- Outcome of `db.Query` + `rows.Next` + `rows.Scan` for one point
lookup: the query itself may error, the row may be absent, the scan may
error, or a data payload is returned. -/
inductive QueryOutcome where
  | qerror (e : String)
  | noRow
  | scanError (e : String)
  | row (data : List Nat)
deriving DecidableEq

/-- Environment of `GetXYZ`'s external calls: whether `os.Stat` reports
the shard file as existing, the `sql.Open` outcome (`some e` = error),
and the point-query outcome per (path, table, row). -/
structure TileEnv where
  fileExists : String → Bool
  openResult : String → Option String
  queryResult : String → String → Int → QueryOutcome

/-- External actions performed by `GetXYZ`, in program order. -/
inductive FetchEvent where
  | statFile (p : String)
  | openDb (p : String)
  | queryDb (p table : String) (row : Int)
deriving DecidableEq

/-- The shard file path `filepath.Join(f.dir, subDir, dbFile)`
(`GetXYZ` line 22). -/
def shardPath (dir : String) (x y z : Int) : String :=
  dir ++ "/" ++ (resolve x y z).subDir ++ "/" ++ (resolve x y z).dbFile

/-- Model of `SRepository.GetXYZ` (lines 18–50): stat the shard path; if absent,
fail with `"<path> not exist"`; otherwise open the database, run the point
query, and fail with the same `"<path> not exist"` message when no row
comes back.  Returns the result together with the trace of external
actions. -/
def GetXYZ (env : TileEnv) (dir : String) (x y z : Int) :
    Except String (List Nat) × List FetchEvent :=
  let a := resolve x y z
  let filePath := dir ++ "/" ++ a.subDir ++ "/" ++ a.dbFile
  if env.fileExists filePath then
    match env.openResult filePath with
    | some e => (.error e, [.statFile filePath, .openDb filePath])
    | none =>
      let trace := [.statFile filePath, .openDb filePath,
                    .queryDb filePath a.table a.row]
      match env.queryResult filePath a.table a.row with
      | .qerror e => (.error e, trace)
      | .noRow => (.error (filePath ++ " not exist"), trace)
      | .scanError e => (.error e, trace)
      | .row d => (.ok d, trace)
  else
    (.error (filePath ++ " not exist"), [.statFile filePath])

/-- The exact rational value of Go's `math.MaxFloat64`,
`(2^53 − 1) · 2^971`. -/
def maxFloat64 : ℚ := (2 ^ 53 - 1) * 2 ^ 971

/-- Model of `Box` (Repository.go lines 16–21): a lng/lat bounding box with
`float64` fields, modelled over `ℚ`. -/
structure Box where
  minx : ℚ
  miny : ℚ
  maxx : ℚ
  maxy : ℚ
deriving DecidableEq

/-- Model of `NewBox()` (line 23): the sentinel "empty" accumulator
`{MaxFloat64, MaxFloat64, -MaxFloat64, -MaxFloat64}`. -/
def NewBox : Box := ⟨maxFloat64, maxFloat64, -maxFloat64, -maxFloat64⟩

/-- Model of `(*Box).extend` (lines 26–31), returning the updated receiver. -/
def Box.extend (b b2 : Box) : Box :=
  ⟨min b.minx b2.minx, min b.miny b2.miny, max b.maxx b2.maxx,
   max b.maxy b2.maxy⟩

/-- Model of `(*Box).IsEmpty` (lines 44–46).  Defined in the source but never
called anywhere in the repository. -/
def Box.IsEmpty (b : Box) : Bool :=
  b.minx == maxFloat64 && b.miny == maxFloat64 &&
    b.maxx == -maxFloat64 && b.maxy == -maxFloat64

/-- Model of `Repository` (lines 48–56): the descriptor serialized to
`repository.json`. -/
structure Repository where
  Name : String
  Lng : ℚ
  Lat : ℚ
  Zoom : Int
  Size : ℚ
  Url : String
  Pared : Bool
deriving DecidableEq

/-- Environment of one repository directory's scan: the outcome of each
external call made by `analysisRepository` — listing the zoom-letter
subdirectories (`listSubDir`), listing each one's `.s` files
(`listAllFile`), `calExtend` per shard file, `os.Stat` size per shard
file, and whether the `repository.json` marshal/create/write succeeds. -/
structure RepoFS where
  subdirsOk : Bool
  subdirs : List String
  filesOk : String → Bool
  files : String → List String
  calExtendR : String → Except Unit Box
  statR : String → Except Unit ℚ
  writeOk : Bool

/-- The per-shard-file body of `analysisRepository`'s inner loop
(lines 136–147): a `calExtend` error skips the file entirely
(`continue`); a `Stat` error skips only the size accumulation. -/
def scanFile (fs : RepoFS) (st : Box × ℚ) (f : String) : Box × ℚ :=
  match fs.calExtendR f with
  | .error _ => st
  | .ok box1 =>
    let box := st.1.extend box1
    match fs.statR f with
    | .error _ => (box, st.2)
    | .ok sz => (box, st.2 + sz)

/-- The inner loop of `analysisRepository` over one subdirectory's shard
files. -/
def scanFiles (fs : RepoFS) (files : List String) (st : Box × ℚ) : Box × ℚ :=
  files.foldl (scanFile fs) st

/-- The outer loop of `analysisRepository` over zoom-letter
subdirectories (lines 131–148): a `listAllFile` error aborts the whole
scan. -/
def scanSubdirs (fs : RepoFS) (subs : List String) (st : Box × ℚ) :
    Except Unit (Box × ℚ) :=
  match subs with
  | [] => .ok st
  | sub :: rest =>
    if fs.filesOk sub then scanSubdirs fs rest (scanFiles fs (fs.files sub) st)
    else .error ()

/-- Model of `analysisRepository` (lines 113–177): scan the repository directory,
then unconditionally build an `analyzed` descriptor — `Pared = true`,
`Zoom = 14`, center at the accumulator's midpoint, accumulated size —
and write it to `repository.json`.  Returns the descriptor together with
`true` when the sidecar was written. -/
def analysisRepository (fs : RepoFS) (name : String) :
    Except Unit (Repository × Bool) :=
  if fs.subdirsOk then
    match scanSubdirs fs fs.subdirs (NewBox, 0) with
    | .error _ => .error ()
    | .ok (box, fileSize) =>
      if fs.writeOk then
        .ok ({ Name := name
               Lng := (1 / 2 : ℚ) * (box.minx + box.maxx)
               Lat := (1 / 2 : ℚ) * (box.miny + box.maxy)
               Zoom := 14
               Size := fileSize
               Url := name
               Pared := true }, true)
      else .error ()
  else .error ()

/-- The per-directory body of `ListRepositories` (lines 66–87): use the
parsed sidecar when present, otherwise scan, otherwise fall back to the
placeholder descriptor `{lng 113, lat 40, zoom 10, size 0, pared false}`.
The second component records whether a sidecar file was written. -/
def listEntry (sidecar : Option Repository) (fs : RepoFS) (name : String) :
    Repository × Bool :=
  match sidecar with
  | some r => (r, false)
  | none =>
    match analysisRepository fs name with
    | .ok rw => rw
    | .error _ =>
      ({ Name := name, Lng := 113, Lat := 40, Zoom := 10, Size := 0,
         Url := name, Pared := false }, false)

/-- One immediate subdirectory of the repository root, with its parsed
sidecar (if `repository.json` exists and parses) and scan environment. -/
structure DirEntry where
  name : String
  sidecar : Option Repository
  fs : RepoFS

/-- Model of `ListRepositories` (lines 59–90) after a successful root `ReadDir`:
each directory entry is handled independently. -/
def ListRepositories (entries : List DirEntry) : List (Repository × Bool) :=
  entries.map (fun e => listEntry e.sidecar e.fs e.name)

/-- The shard files of a repository, in scan order: the concatenation of
each zoom-letter subdirectory's `.s` file list. -/
def repoFiles (fs : RepoFS) : List String :=
  (fs.subdirs.map fs.files).flatten

/-- The bounding box and total size accumulated over all of a
repository's shard files, starting from the empty accumulator. -/
def accumState (fs : RepoFS) : Box × ℚ :=
  scanFiles fs (repoFiles fs) (NewBox, 0)

/-- Model of `INITIALIZE_RESOLUTION` (line 269): `2π·6378137/256`. -/
noncomputable def INITIALIZE_RESOLUTION : ℝ := 2 * Real.pi * 6378137 / 256

/-- Model of `ORIGIN_SHIFT` (line 271): `2π·6378137/2`. -/
noncomputable def ORIGIN_SHIFT : ℝ := 2 * Real.pi * 6378137 / 2

/-- Model of `pixelsToMeters` (lines 273–281): pixel coordinates at a zoom level
to Web-Mercator meters. -/
noncomputable def pixelsToMeters (px py : ℝ) (zoom : ℤ) : ℝ × ℝ :=
  let res := INITIALIZE_RESOLUTION / (2 : ℝ) ^ zoom
  (px * res - ORIGIN_SHIFT, -(py * res - ORIGIN_SHIFT))

/-- Model of `meterToLngLat` (lines 291–297): Web-Mercator meters to WGS84
longitude/latitude. -/
noncomputable def meterToLngLat (mx my : ℝ) : ℝ × ℝ :=
  let lon := mx / ORIGIN_SHIFT * 180
  let lat := my / ORIGIN_SHIFT * 180
  (lon, 180 / Real.pi *
    (2 * Real.arctan (Real.exp (lat * Real.pi / 180)) - Real.pi / 2))

/-- The claim's formula for `pixelsToMeters`, written with
`res = (2π·6378137/256)/2^zoom` and `S = π·6378137` as the spec states
it (for comparison with the source definition). -/
noncomputable def pixelsToMetersSpec (px py : ℝ) (zoom : ℤ) : ℝ × ℝ :=
  let res := 2 * Real.pi * 6378137 / 256 / (2 : ℝ) ^ zoom
  let S := Real.pi * 6378137
  (px * res - S, -(py * res - S))

/-- The claim's formula for `meterToLngLat`:
`lon = (mx/S)·180`, `lat = (180/π)·(2·atan(exp(((my/S)·180)·π/180)) − π/2)`
with `S = π·6378137` (for comparison with the source definition). -/
noncomputable def meterToLngLatSpec (mx my : ℝ) : ℝ × ℝ :=
  let S := Real.pi * 6378137
  (mx / S * 180,
    180 / Real.pi *
      (2 * Real.arctan (Real.exp (my / S * 180 * Real.pi / 180)) -
        Real.pi / 2))

end SirServer

namespace SirServer

/-- C3: `Resolve(x=300, y=70, zoom=10)` yields subdirectory `"K"`, shard
file `"K_1_0.s"`, table `"K_4_1"`, and row index `428`. -/
theorem resolve_scenarioA :
    resolve 300 70 10 =
      { subDir := "K", dbFile := "K_1_0.s", table := "K_4_1", row := 428 } := by
  decide

/-- C4: for nonnegative tile coordinates the row index
`(x mod 64) + 64*(y mod 64)` lies in `[0, 4095]`, and two tiles with
distinct `(x mod 64, y mod 64)` pairs get distinct row indices. -/
theorem rowIndex_range_injective (x y x₁ y₁ x₂ y₂ : Int)
    (hx : 0 ≤ x) (hy : 0 ≤ y) (hx₁ : 0 ≤ x₁) (hy₁ : 0 ≤ y₁)
    (hx₂ : 0 ≤ x₂) (hy₂ : 0 ≤ y₂) :
    (0 ≤ rowIndex x y ∧ rowIndex x y ≤ 4095) ∧
      ((Int.tmod x₁ 64, Int.tmod y₁ 64) ≠ (Int.tmod x₂ 64, Int.tmod y₂ 64) →
        rowIndex x₁ y₁ ≠ rowIndex x₂ y₂) := by
  have tm : ∀ a : Int, 0 ≤ a → 0 ≤ Int.tmod a 64 ∧ Int.tmod a 64 < 64 := by
    intro a ha
    rw [Int.tmod_eq_emod ha (by norm_num)]
    exact ⟨Int.emod_nonneg a (by norm_num), Int.emod_lt_of_pos a (by norm_num)⟩
  obtain ⟨h1, h2⟩ := tm x hx
  obtain ⟨h3, h4⟩ := tm y hy
  obtain ⟨h5, h6⟩ := tm x₁ hx₁
  obtain ⟨h7, h8⟩ := tm y₁ hy₁
  obtain ⟨h9, h10⟩ := tm x₂ hx₂
  obtain ⟨h11, h12⟩ := tm y₂ hy₂
  refine ⟨⟨by unfold rowIndex; omega, by unfold rowIndex; omega⟩, ?_⟩
  intro hne heq
  apply hne
  unfold rowIndex at heq
  have : Int.tmod x₁ 64 = Int.tmod x₂ 64 ∧ Int.tmod y₁ 64 = Int.tmod y₂ 64 := by
    omega
  simp [this.1, this.2]

/-- Witness for `rowIndex_range_injective` at `(x,y) = (300,70)`,
`(x₁,y₁) = (0,1)`, `(x₂,y₂) = (1,0)`. -/
theorem rowIndex_range_injective_witness :
    (0 ≤ rowIndex 300 70 ∧ rowIndex 300 70 ≤ 4095) ∧
      ((Int.tmod 0 64, Int.tmod 1 64) ≠ (Int.tmod 1 64, Int.tmod 0 64) →
        rowIndex 0 1 ≠ rowIndex 1 0) :=
  rowIndex_range_injective 300 70 0 1 1 0 (by decide) (by decide) (by decide)
    (by decide) (by decide) (by decide)

/-- C6: for every `x`, `y` and every zoom below 9, the resolved
subdirectory, shard file name, table name and row index coincide with
those of zoom 9, because `vz = max(z, 9)`. -/
theorem resolve_zoom_clamp (x y z : Int) (h : z < 9) :
    resolve x y z = resolve x y 9 := by
  unfold resolve effZoom
  rw [max_eq_right (le_of_lt h), max_self]

/-- Witness for `resolve_zoom_clamp` at `x = 300`, `y = 70`, `z = 3`. -/
theorem resolve_zoom_clamp_witness : resolve 300 70 3 = resolve 300 70 9 :=
  resolve_zoom_clamp 300 70 3 (by decide)

/-- C5: when the computed shard file does not exist, `GetXYZ` fails with
the `"<path> not exist"` message, its trace contains no database open,
and (for every environment) the existence check is the first external
action. -/
theorem GetXYZ_missing_shard (env : TileEnv) (dir : String) (x y z : Int)
    (h : env.fileExists (shardPath dir x y z) = false) :
    (GetXYZ env dir x y z).1 = .error (shardPath dir x y z ++ " not exist") ∧
      (∀ p, FetchEvent.openDb p ∉ (GetXYZ env dir x y z).2) ∧
      ∀ env' : TileEnv,
        ((GetXYZ env' dir x y z).2).head? =
          some (.statFile (shardPath dir x y z)) := by
  unfold GetXYZ shardPath at *
  refine ⟨?_, ?_, ?_⟩
  · simp only [h, Bool.false_eq_true, if_false]
  · intro p
    simp only [h, Bool.false_eq_true, if_false]
    simp
  · intro env'
    dsimp only
    split
    · split
      · simp
      · split <;> simp
    · simp

/-- Witness for `GetXYZ_missing_shard`: an environment where no file
exists, at `dir = "repo"`, `(x, y, z) = (300, 70, 10)`. -/
theorem GetXYZ_missing_shard_witness :
    ((GetXYZ ⟨fun _ => false, fun _ => none, fun _ _ _ => .noRow⟩
        "repo" 300 70 10).1 =
      .error (shardPath "repo" 300 70 10 ++ " not exist") ∧
      (∀ p, FetchEvent.openDb p ∉
        (GetXYZ ⟨fun _ => false, fun _ => none, fun _ _ _ => .noRow⟩
          "repo" 300 70 10).2) ∧
      ∀ env' : TileEnv,
        ((GetXYZ env' "repo" 300 70 10).2).head? =
          some (.statFile (shardPath "repo" 300 70 10))) :=
  GetXYZ_missing_shard ⟨fun _ => false, fun _ => none, fun _ _ _ => .noRow⟩
    "repo" 300 70 10 rfl

/-- C10: a missing shard file and a present shard whose queried row is
absent produce equal error values — the same `"<path> not exist"`
message — so the two NotFound causes are indistinguishable to callers. -/
theorem GetXYZ_notfound_indistinguishable (env₁ env₂ : TileEnv)
    (dir : String) (x y z : Int)
    (h1 : env₁.fileExists (shardPath dir x y z) = false)
    (h2 : env₂.fileExists (shardPath dir x y z) = true)
    (h3 : env₂.openResult (shardPath dir x y z) = none)
    (h4 : env₂.queryResult (shardPath dir x y z) (resolve x y z).table
            (resolve x y z).row = .noRow) :
    (GetXYZ env₁ dir x y z).1 = (GetXYZ env₂ dir x y z).1 ∧
      (GetXYZ env₁ dir x y z).1 =
        .error (shardPath dir x y z ++ " not exist") := by
  unfold GetXYZ shardPath at *
  simp [h1, h2, h3, h4]

/-- Witness for `GetXYZ_notfound_indistinguishable`: one environment with
no files, one with the file present, open succeeding and the row absent,
at `dir = "repo"`, `(x, y, z) = (300, 70, 10)`. -/
theorem GetXYZ_notfound_indistinguishable_witness :
    ((GetXYZ ⟨fun _ => false, fun _ => none, fun _ _ _ => .noRow⟩
        "repo" 300 70 10).1 =
      (GetXYZ ⟨fun _ => true, fun _ => none, fun _ _ _ => .noRow⟩
        "repo" 300 70 10).1 ∧
      (GetXYZ ⟨fun _ => false, fun _ => none, fun _ _ _ => .noRow⟩
        "repo" 300 70 10).1 =
        .error (shardPath "repo" 300 70 10 ++ " not exist")) :=
  GetXYZ_notfound_indistinguishable
    ⟨fun _ => false, fun _ => none, fun _ _ _ => .noRow⟩
    ⟨fun _ => true, fun _ => none, fun _ _ _ => .noRow⟩
    "repo" 300 70 10 rfl rfl rfl rfl

/-- C8: the empty box `NewBox` is a left identity of `extend` on every
real box (one whose coordinates are representable, i.e. bounded by
`MaxFloat64`), and `extend` is idempotent. -/
theorem box_extend_identity_idem (B : Box)
    (h1 : B.minx ≤ maxFloat64) (h2 : B.miny ≤ maxFloat64)
    (h3 : -maxFloat64 ≤ B.maxx) (h4 : -maxFloat64 ≤ B.maxy) :
    NewBox.extend B = B ∧ B.extend B = B := by
  obtain ⟨a, b, c, d⟩ := B
  constructor
  · simp only [NewBox, Box.extend]
    rw [min_eq_right h1, min_eq_right h2, max_eq_right h3, max_eq_right h4]
  · simp [Box.extend]

/-- Witness for `box_extend_identity_idem` at `B = ⟨100, -50, 120, 60⟩`. -/
theorem box_extend_identity_idem_witness :
    NewBox.extend ⟨100, -50, 120, 60⟩ = ⟨100, -50, 120, 60⟩ ∧
      Box.extend ⟨100, -50, 120, 60⟩ ⟨100, -50, 120, 60⟩ =
        ⟨100, -50, 120, 60⟩ :=
  box_extend_identity_idem ⟨100, -50, 120, 60⟩
    (by norm_num [maxFloat64]) (by norm_num [maxFloat64])
    (by norm_num [maxFloat64]) (by norm_num [maxFloat64])

/-- A successful pass of the subdirectory loop computes exactly the fold
of the per-file step over the concatenated file lists. -/
theorem scanSubdirs_ok_eq (fs : RepoFS) :
    ∀ subs st out, scanSubdirs fs subs st = .ok out →
      out = scanFiles fs (subs.map fs.files).flatten st := by
  intro subs
  induction subs with
  | nil =>
    intro st out h
    simp only [scanSubdirs] at h
    cases h
    simp [scanFiles]
  | cons sub rest ih =>
    intro st out h
    simp only [scanSubdirs] at h
    by_cases hs : fs.filesOk sub
    · rw [if_pos hs] at h
      have := ih _ _ h
      simp only [List.map_cons, List.flatten_cons]
      rw [this]
      simp [scanFiles, List.foldl_append]
    · rw [if_neg hs] at h
      cases h

/-- C7: every descriptor of a successful scan has `Pared = true`,
`Zoom = 14`, `Size` equal to the accumulated shard-file byte total, and
`(Lng, Lat)` at the midpoint of the accumulated bounding box. -/
theorem analysisRepository_descriptor (fs : RepoFS) (name : String)
    (r : Repository) (w : Bool)
    (h : analysisRepository fs name = .ok (r, w)) :
    r.Pared = true ∧ r.Zoom = 14 ∧ r.Size = (accumState fs).2 ∧
      r.Lng = (1 / 2 : ℚ) * ((accumState fs).1.minx + (accumState fs).1.maxx) ∧
      r.Lat = (1 / 2 : ℚ) * ((accumState fs).1.miny + (accumState fs).1.maxy) := by
  unfold analysisRepository at h
  by_cases hsub : fs.subdirsOk
  · rw [if_pos hsub] at h
    cases hscan : scanSubdirs fs fs.subdirs (NewBox, 0) with
    | error e => rw [hscan] at h; cases h
    | ok out =>
      rw [hscan] at h
      obtain ⟨box, sz⟩ := out
      dsimp only at h
      by_cases hw : fs.writeOk
      · rw [if_pos hw] at h
        have hacc : (box, sz) = accumState fs := scanSubdirs_ok_eq fs _ _ _ hscan
        cases h
        refine ⟨rfl, rfl, ?_, ?_, ?_⟩ <;> rw [← hacc]
      · rw [if_neg hw] at h; cases h
  · rw [if_neg hsub] at h; cases h

/-- A one-shard environment whose scan succeeds: one zoom directory,
one shard file with extent box `⟨1, 2, 3, 4⟩` and size 5. -/
def fsOne : RepoFS :=
  { subdirsOk := true, subdirs := ["A"], filesOk := fun _ => true,
    files := fun _ => ["f"], calExtendR := fun _ => .ok ⟨1, 2, 3, 4⟩,
    statR := fun _ => .ok 5, writeOk := true }

/-- Witness for `analysisRepository_descriptor` at `fsOne`. -/
theorem analysisRepository_descriptor_witness :
    ({ Name := "r", Lng := 2, Lat := 3, Zoom := 14, Size := 5,
       Url := "r", Pared := true } : Repository).Pared = true ∧
      ({ Name := "r", Lng := 2, Lat := 3, Zoom := 14, Size := 5,
         Url := "r", Pared := true } : Repository).Zoom = 14 ∧
      ({ Name := "r", Lng := 2, Lat := 3, Zoom := 14, Size := 5,
         Url := "r", Pared := true } : Repository).Size = (accumState fsOne).2 ∧
      ({ Name := "r", Lng := 2, Lat := 3, Zoom := 14, Size := 5,
         Url := "r", Pared := true } : Repository).Lng =
        (1 / 2 : ℚ) * ((accumState fsOne).1.minx + (accumState fsOne).1.maxx) ∧
      ({ Name := "r", Lng := 2, Lat := 3, Zoom := 14, Size := 5,
         Url := "r", Pared := true } : Repository).Lat =
        (1 / 2 : ℚ) * ((accumState fsOne).1.miny + (accumState fsOne).1.maxy) :=
  analysisRepository_descriptor fsOne "r" _ true (by
    simp only [analysisRepository, fsOne, scanSubdirs, scanFiles, scanFile,
      List.foldl, NewBox, Box.extend, if_true]
    norm_num [maxFloat64, min_def, max_def])

/-- A repository directory with no shard tiles at all: directory listing
succeeds but finds no zoom-letter subdirectories, and the sidecar write
succeeds. -/
def emptyFS : RepoFS :=
  { subdirsOk := true, subdirs := [], filesOk := fun _ => true,
    files := fun _ => [], calExtendR := fun _ => .error (),
    statR := fun _ => .error (), writeOk := true }

/-- What `ListRepositories` actually does for one empty repository with
no cached sidecar: the scan succeeds, yielding `Pared = true`,
`Zoom = 14`, center `(0, 0)` (the midpoint of the untouched sentinel
accumulator), size 0 — and the sidecar is written. -/
theorem listEntry_emptyFS_eq :
    listEntry none emptyFS "r" =
      ({ Name := "r", Lng := 0, Lat := 0, Zoom := 14, Size := 0,
         Url := "r", Pared := true }, true) := by
  simp only [listEntry, analysisRepository, emptyFS, scanSubdirs, NewBox,
    if_true]
  norm_num

/-- C1 counterexample: for an empty repository the claim is false — the
listing result does not have `analyzed = false` with center `(113, 40)`
and no sidecar written; the scan succeeds instead of failing. -/
theorem listEntry_empty_scan_cex :
    ¬ ((listEntry none emptyFS "r").1.Pared = false ∧
        (listEntry none emptyFS "r").1.Lng = 113 ∧
        (listEntry none emptyFS "r").1.Lat = 40 ∧
        (listEntry none emptyFS "r").2 = false) := by
  rw [listEntry_emptyFS_eq]
  simp

/-- C1 amended: when the scan of a repository finds no tiles (the
accumulator is still the sentinel `NewBox`) and the directory listing
and sidecar write succeed, the listing returns a descriptor with
`Pared = true`, `Zoom = 14`, center `(0, 0)` and the accumulated size,
and the `repository.json` sidecar IS written. -/
theorem listEntry_empty_scan_amended (fs : RepoFS) (name : String) (sz : ℚ)
    (hsub : fs.subdirsOk = true) (hw : fs.writeOk = true)
    (hscan : scanSubdirs fs fs.subdirs (NewBox, 0) = .ok (NewBox, sz)) :
    listEntry none fs name =
      ({ Name := name, Lng := 0, Lat := 0, Zoom := 14, Size := sz,
         Url := name, Pared := true }, true) := by
  simp only [listEntry, analysisRepository, hsub, hw, hscan, if_true]
  norm_num [NewBox]

/-- Witness for `listEntry_empty_scan_amended` at the concrete empty
repository `emptyFS`. -/
theorem listEntry_empty_scan_amended_witness :
    listEntry none emptyFS "s" =
      ({ Name := "s", Lng := 0, Lat := 0, Zoom := 14, Size := 0,
         Url := "s", Pared := true }, true) :=
  listEntry_empty_scan_amended emptyFS "s" 0 rfl rfl rfl

/-- An environment with a single shard file whose `calExtend` errors:
the scan nevertheless succeeds. -/
def badShardFS : RepoFS :=
  { subdirsOk := true, subdirs := ["A"], filesOk := fun _ => true,
    files := fun _ => ["f"], calExtendR := fun _ => .error (),
    statR := fun _ => .error (), writeOk := true }

/-- C2 counterexample: a database error while processing a shard file
(`calExtend` fails on `"f"`) does not abort the repository scan and is
not surfaced — `analysisRepository` still returns success. -/
theorem analysisRepository_shard_error_cex :
    badShardFS.calExtendR "f" = .error () ∧
      analysisRepository badShardFS "r" =
        .ok ({ Name := "r", Lng := 0, Lat := 0, Zoom := 14, Size := 0,
               Url := "r", Pared := true }, true) := by
  refine ⟨rfl, ?_⟩
  simp only [analysisRepository, badShardFS, scanSubdirs, scanFiles,
    scanFile, List.foldl, NewBox, if_true]
  norm_num

/-- If some zoom-letter subdirectory's file listing fails, the whole
subdirectory loop aborts with an error. -/
theorem scanSubdirs_error_of_filesOk_false (fs : RepoFS) :
    ∀ subs st sub, sub ∈ subs → fs.filesOk sub = false →
      scanSubdirs fs subs st = .error () := by
  intro subs
  induction subs with
  | nil => intro st sub h; cases h
  | cons s rest ih =>
    intro st sub h hf
    cases h with
    | head => simp [scanSubdirs, hf]
    | tail _ hmem =>
      by_cases hs : fs.filesOk s
      · simp [scanSubdirs, hs, ih _ sub hmem hf]
      · simp [scanSubdirs, hs]

/-- An environment with a single shard file whose `calExtend` succeeds
but whose `os.Stat` errors: the box contribution is kept, the size is
not. -/
def statErrFS : RepoFS :=
  { subdirsOk := true, subdirs := ["A"], filesOk := fun _ => true,
    files := fun _ => ["f"], calExtendR := fun _ => .ok ⟨1, 2, 3, 4⟩,
    statR := fun _ => .error (), writeOk := true }

/-- C2 amended: a filesystem error listing the repository's
subdirectories, or listing any subdirectory's shard files, aborts the
scan and is surfaced as an error; a `calExtend` (database) error on an
individual shard file skips that file entirely and the scan continues;
a stat error on a shard file keeps the file's bounding-box contribution
(`box.extend` runs before `os.Stat`) and skips only its size
contribution; and each repository in a root listing is processed
independently, so no error aborts the processing of sibling
repositories. -/
theorem analysisRepository_error_semantics :
    (∀ fs : RepoFS, ∀ name, fs.subdirsOk = false →
        analysisRepository fs name = .error ()) ∧
      (∀ fs : RepoFS, ∀ name sub, sub ∈ fs.subdirs →
          fs.filesOk sub = false → analysisRepository fs name = .error ()) ∧
      (∀ fs : RepoFS, ∀ f rest st, fs.calExtendR f = .error () →
          scanFiles fs (f :: rest) st = scanFiles fs rest st) ∧
      (∀ fs : RepoFS, ∀ f rest st b, fs.calExtendR f = .ok b →
          fs.statR f = .error () →
          scanFiles fs (f :: rest) st =
            scanFiles fs rest (st.1.extend b, st.2)) ∧
      ∀ (pre : List DirEntry) (e : DirEntry) (post : List DirEntry),
        ListRepositories (pre ++ e :: post) =
          ListRepositories pre ++
            listEntry e.sidecar e.fs e.name :: ListRepositories post := by
  refine ⟨?_, ?_, ?_, ?_, ?_⟩
  · intro fs name h
    simp [analysisRepository, h]
  · intro fs name sub hmem hf
    simp [analysisRepository, scanSubdirs_error_of_filesOk_false fs _ _ _ hmem hf]
  · intro fs f rest st h
    simp [scanFiles, scanFile, h]
  · intro fs f rest st b h1 h2
    simp [scanFiles, scanFile, h1, h2]
  · intro pre e post
    simp [ListRepositories]

/-- Witness for `analysisRepository_error_semantics`: a failing
subdirectory listing aborts the scan, a `calExtend` error on shard file
`"f"` skips that file entirely, and a stat error on `"f"` keeps its box
contribution while skipping its size. -/
theorem analysisRepository_error_semantics_witness :
    analysisRepository { emptyFS with subdirsOk := false } "r" = .error () ∧
      scanFiles badShardFS ["f"] (NewBox, 0) =
        scanFiles badShardFS [] (NewBox, 0) ∧
      scanFiles statErrFS ["f"] (NewBox, 0) =
        scanFiles statErrFS [] (NewBox.extend ⟨1, 2, 3, 4⟩, 0) :=
  ⟨analysisRepository_error_semantics.1 _ "r" rfl,
   analysisRepository_error_semantics.2.2.1 _ "f" [] _ rfl,
   analysisRepository_error_semantics.2.2.2.1 _ "f" [] (NewBox, 0)
     ⟨1, 2, 3, 4⟩ rfl rfl⟩

/-- C9: `pixelsToMeters` and `meterToLngLat` compute exactly the
formulas the claim states, with `res = (2π·6378137/256)/2^zoom` and
`S = π·6378137`, for every input. -/
theorem mercator_formulas (px py mx my : ℝ) (zoom : ℤ) :
    pixelsToMeters px py zoom = pixelsToMetersSpec px py zoom ∧
      meterToLngLat mx my = meterToLngLatSpec mx my := by
  have hS : ORIGIN_SHIFT = Real.pi * 6378137 := by
    unfold ORIGIN_SHIFT; ring
  constructor
  · unfold pixelsToMeters pixelsToMetersSpec INITIALIZE_RESOLUTION
    rw [hS]
  · unfold meterToLngLat meterToLngLatSpec
    rw [hS]

end SirServer
